import Mathlib

/-!
Verification of the Restaurant admin-dashboard client code.

The development embeds the two stateful screens of the repository:
the customer list view (its `handleDelete` and `handleEdit` handlers and
its row rendering) and the create-user form (its `handleSubmit` handler,
the request it issues, and the state updates after a response or an
error).  Browser dialogs (confirm, prompt) and the network response are
modelled as explicit inputs to the handlers; the component state updates
become pure functions on the state.
-/

namespace Restaurant

/-- A customer record as held in the `ViewCustomers` component state:
numeric id, display name, date of birth, phone number, password and
role, all rendered verbatim in the table. -/
structure Customer where
  id : Nat
  name : String
  DOB : String
  phoneNumber : String
  password : String
  role : String
deriving Repr, DecidableEq

/-- The customer table's delete handler.  The source reads:
`if (window.confirm(...)) setCustomers(customers.filter(c => c.id !== id))`.
The confirmation dialog's answer is the explicit `confirmed` argument. -/
def handleDelete (confirmed : Bool) (targetId : Nat) (customers : List Customer) :
    List Customer :=
  if confirmed then
    customers.filter (fun customer => customer.id != targetId)
  else
    customers

/-- The customer table's edit handler.  The source reads:
`const newName = prompt(...); if (newName) setCustomers(customers.map(c =>
c.id === id ? { ...c, name: newName } : c))`.  The prompt result is the
explicit `newName` argument: `none` models a cancelled prompt, and the
JavaScript truthiness test rejects the empty string as well. -/
def handleEdit (newName : Option String) (targetId : Nat) (customers : List Customer) :
    List Customer :=
  match newName with
  | none => customers
  | some n =>
    if n != "" then
      customers.map (fun customer =>
        if customer.id == targetId then { customer with name := n } else customer)
    else
      customers

/-- A rendered table-body row of the customer table: either a data row
for one customer or the full-width "No customers found" placeholder. -/
inductive Row where
  | data (c : Customer)
  | placeholder
deriving Repr, DecidableEq

/-- Whether a rendered row is a data row. -/
def Row.isData : Row → Bool
  | .data _ => true
  | .placeholder => false

/-- The table body of `ViewCustomers`: `customers.map(...)` renders one
row per record, and `customers.length === 0 && (<tr>...</tr>)` appends
the placeholder row exactly when the list is empty. -/
def renderRows (customers : List Customer) : List Row :=
  customers.map Row.data ++ (if customers.length == 0 then [Row.placeholder] else [])

/-- The controlled state of the `CreateUser` form: one string per field. -/
structure FormData where
  name : String
  DOB : String
  phoneNumber : String
  password : String
  role : String
deriving Repr, DecidableEq

/-- The form state set initially and again after a successful submission:
every field is the empty string. -/
def emptyForm : FormData :=
  { name := "", DOB := "", phoneNumber := "", password := "", role := "" }

/-- An HTTP request as issued by the submit handler: method, url and a
JSON object body given as ordered key/value pairs. -/
structure HttpRequest where
  method : String
  url : String
  body : List (String × String)
deriving Repr, DecidableEq

/-- The JSON body `axios.post` serializes from the `formData` object:
its five keys in declaration order, each paired with the current value. -/
def serializeForm (fd : FormData) : List (String × String) :=
  [("name", fd.name), ("DOB", fd.DOB), ("phoneNumber", fd.phoneNumber),
   ("password", fd.password), ("role", fd.role)]

/-- The requests issued by one run of `handleSubmit`: exactly the single
`axios.post('http://localhost:5000/api/auth/create', formData)` call. -/
def submitRequests (fd : FormData) : List HttpRequest :=
  [{ method := "POST", url := "http://localhost:5000/api/auth/create",
     body := serializeForm fd }]

/-- How one `handleSubmit` run ends: `response status` models the axios
promise resolving with that status, and `failure msg` models the promise
rejecting, carrying `err.response?.data?.message` when that optional
chain produces a string (`none` covers a network failure with no
response as well as an error body without a `message` field). -/
inductive SubmitOutcome where
  | response (status : Nat)
  | failure (serverMessage : Option String)
deriving Repr, DecidableEq

/-- The form state after `handleSubmit` processes an outcome: the
`res.status === 201 || res.status === 200` branch resets every field to
the empty string; the other response branch and the catch branch leave
`formData` untouched (no `setFormData` call there). -/
def formAfterSubmit (fd : FormData) (outcome : SubmitOutcome) : FormData :=
  match outcome with
  | .response status =>
    if status == 201 || status == 200 then emptyForm else fd
  | .failure _ => fd

/-- The alert text `handleSubmit` shows for an outcome.  The catch branch
reads `alert(err.response?.data?.message || 'Something went wrong.')`, so
a missing or empty (falsy) server message falls back to the fixed text. -/
def alertAfterSubmit (outcome : SubmitOutcome) : String :=
  match outcome with
  | .response status =>
    if status == 201 || status == 200 then "User created successfully!"
    else "Error creating user."
  | .failure serverMessage =>
    match serverMessage with
    | some m => if m != "" then m else "Something went wrong."
    | none => "Something went wrong."

/-- A field of the rendered create-user form: its `name` attribute, its
`type` attribute, and whether the `required` attribute is present. -/
structure FieldSpec where
  fieldName : String
  inputType : String
  required : Bool
deriving Repr, DecidableEq

/-- The five inputs rendered by `CreateUser`, in document order, with
the `required` flags exactly as written in the JSX. -/
def createUserFields : List FieldSpec :=
  [{ fieldName := "name", inputType := "text", required := true },
   { fieldName := "DOB", inputType := "date", required := false },
   { fieldName := "phoneNumber", inputType := "tel", required := true },
   { fieldName := "password", inputType := "password", required := true },
   { fieldName := "role", inputType := "text", required := false }]

/-- The `handleChange` handler:
`setFormData({ ...formData, [e.target.name]: e.target.value })` replaces
the field named by the input's `name` attribute with the typed value and
keeps every other field.  Only the five rendered field names can occur. -/
def handleChange (fd : FormData) (field value : String) : FormData :=
  if field == "name" then { fd with name := value }
  else if field == "DOB" then { fd with DOB := value }
  else if field == "phoneNumber" then { fd with phoneNumber := value }
  else if field == "password" then { fd with password := value }
  else if field == "role" then { fd with role := value }
  else fd

/-- The observable state of the mounted `CreateUser` component: the
controlled form values, how many submitted requests are still pending,
and the log of requests issued so far. -/
structure FormUIState where
  form : FormData
  pending : Nat
  sent : List HttpRequest
deriving Repr, DecidableEq

/-- The discrete events driving the form: a change to one field, a
submit of the form, and the resolution of one pending request. -/
inductive FormEvent where
  | setField (field value : String)
  | submit
  | resolve (outcome : SubmitOutcome)
deriving Repr, DecidableEq

/-- One step of the form's event loop.  `handleSubmit` has no guard: a
submit event always issues the POST built from the current form values,
whether or not an earlier request is still pending.  A resolution of a
pending request applies the response handling of `handleSubmit` to the
form state. -/
def stepForm (s : FormUIState) : FormEvent → FormUIState
  | .setField field value => { s with form := handleChange s.form field value }
  | .submit =>
    { s with pending := s.pending + 1, sent := s.sent ++ submitRequests s.form }
  | .resolve outcome =>
    if s.pending = 0 then s
    else { s with form := formAfterSubmit s.form outcome, pending := s.pending - 1 }

/-- The state of a freshly mounted `CreateUser` component. -/
def initialFormState : FormUIState :=
  { form := emptyForm, pending := 0, sent := [] }

/-- The form state after a sequence of events from the initial state. -/
def runForm (events : List FormEvent) : FormUIState :=
  events.foldl stepForm initialFormState

/-- The first record the `useState` initializer of `ViewCustomers`
installs. -/
def johnDoe : Customer :=
  { id := 1, name := "John Doe", DOB := "1990-05-15",
    phoneNumber := "1234567890", password := "pass123", role := "Customer" }

/-- The second record the `useState` initializer of `ViewCustomers`
installs. -/
def janeSmith : Customer :=
  { id := 2, name := "Jane Smith", DOB := "1995-08-20",
    phoneNumber := "9876543210", password := "secure456", role := "Admin" }

/-- The initial customer list of `ViewCustomers`. -/
def initialCustomers : List Customer := [johnDoe, janeSmith]

/-- Claim C10: if the delete confirmation dialog is declined, the
customer list after the delete action is identical to the list before
it. -/
theorem handleDelete_declined_id (targetId : Nat) (customers : List Customer) :
    handleDelete false targetId customers = customers := by
  simp [handleDelete]

/-- Claim C6: rendering the customer table body with zero entries
produces exactly one placeholder row and no data rows, and rendering it
with n > 0 entries produces exactly n data rows and no placeholder
row. -/
theorem renderRows_counts (customers : List Customer) :
    (renderRows customers).countP Row.isData = customers.length ∧
    (renderRows customers).countP (fun r => !r.isData) =
      (if customers.length = 0 then 1 else 0) := by
  cases customers with
  | nil => exact ⟨rfl, rfl⟩
  | cons c rest =>
    constructor
    · simp [renderRows, List.countP_append, List.countP_map, Row.isData,
        List.countP_eq_length]
    · simp [renderRows, List.countP_append, List.countP_map, Row.isData]

/-- Claim C8: the create-user form renders exactly five fields, named
name, DOB, phoneNumber, password and role, of which exactly name,
phoneNumber and password carry the required attribute while DOB and
role do not. -/
theorem createUserFields_spec :
    createUserFields.length = 5 ∧
    createUserFields.map FieldSpec.fieldName =
      ["name", "DOB", "phoneNumber", "password", "role"] ∧
    (createUserFields.filter FieldSpec.required).map FieldSpec.fieldName =
      ["name", "phoneNumber", "password"] ∧
    (createUserFields.filter (fun f => !f.required)).map FieldSpec.fieldName =
      ["DOB", "role"] :=
  ⟨rfl, rfl, rfl, rfl⟩

/-- Claim C3: for every form state, one run of the submit handler issues
exactly one request; it is a POST to the fixed endpoint
/api/auth/create, and its JSON body has exactly the keys name, DOB,
phoneNumber, password, role, bound to the current field values. -/
theorem submitRequests_spec (fd : FormData) :
    (submitRequests fd).length = 1 ∧
    ∀ r ∈ submitRequests fd,
      r.method = "POST" ∧
      r.url = "http://localhost:5000/api/auth/create" ∧
      "/api/auth/create".toList <:+ r.url.toList ∧
      r.body.map Prod.fst = ["name", "DOB", "phoneNumber", "password", "role"] ∧
      r.body.map Prod.snd = [fd.name, fd.DOB, fd.phoneNumber, fd.password, fd.role] := by
  refine ⟨rfl, ?_⟩
  intro r hr
  have hr2 : r = HttpRequest.mk "POST" "http://localhost:5000/api/auth/create"
      (serializeForm fd) := by
    simpa [submitRequests] using hr
  subst hr2
  refine ⟨rfl, rfl, ⟨"http://localhost:5000".toList, ?_⟩, rfl, rfl⟩
  show "http://localhost:5000".toList ++ "/api/auth/create".toList =
    "http://localhost:5000/api/auth/create".toList
  decide

/-- Witness for C3 at a concrete form state. -/
theorem submitRequests_spec_witness :
    (HttpRequest.mk "POST" "http://localhost:5000/api/auth/create"
      (serializeForm emptyForm)).method = "POST" :=
  ((submitRequests_spec emptyForm).2 _ (by simp [submitRequests])).1

/-- Claim C4: a response with status 200 or 201 resets every form field
to the empty string; any other status, and any rejected request, leaves
the form state exactly as it was at submit time. -/
theorem formAfterSubmit_spec (fd : FormData) (status : Nat) (msg : Option String) :
    ((status = 200 ∨ status = 201) →
      (formAfterSubmit fd (.response status)).name = "" ∧
      (formAfterSubmit fd (.response status)).DOB = "" ∧
      (formAfterSubmit fd (.response status)).phoneNumber = "" ∧
      (formAfterSubmit fd (.response status)).password = "" ∧
      (formAfterSubmit fd (.response status)).role = "") ∧
    (status ≠ 200 → status ≠ 201 → formAfterSubmit fd (.response status) = fd) ∧
    formAfterSubmit fd (.failure msg) = fd := by
  refine ⟨?_, ?_, rfl⟩
  · rintro (rfl | rfl) <;> exact ⟨rfl, rfl, rfl, rfl, rfl⟩
  · intro h200 h201
    simp [formAfterSubmit, h200, h201]

/-- Witness for C4: a 200 response clears the name field, and a 404
response leaves a populated form unchanged. -/
theorem formAfterSubmit_spec_witness :
    (formAfterSubmit (FormData.mk "a" "b" "c" "d" "e") (SubmitOutcome.response 200)).name = "" ∧
    formAfterSubmit (FormData.mk "a" "b" "c" "d" "e") (SubmitOutcome.response 404) =
      FormData.mk "a" "b" "c" "d" "e" :=
  ⟨((formAfterSubmit_spec (FormData.mk "a" "b" "c" "d" "e") 200 none).1 (Or.inl rfl)).1,
   (formAfterSubmit_spec (FormData.mk "a" "b" "c" "d" "e") 404 none).2.1
     (by decide) (by decide)⟩

/-- Counterexample to C5 as stated: for an error response whose body
carries the `message` field with the value `""`, the alert text is the
generic fallback, not the server-supplied message. -/
theorem alertAfterSubmit_empty_message :
    alertAfterSubmit (SubmitOutcome.failure (some "")) = "Something went wrong." ∧
    alertAfterSubmit (SubmitOutcome.failure (some "")) ≠ "" := by
  exact ⟨rfl, by decide⟩

/-- Claim C5 amended: on a failed request the alert text is the
server-supplied `message` field when it is present and non-empty, and
the fixed fallback "Something went wrong." when it is absent or
empty. -/
theorem alertAfterSubmit_spec (msg : Option String) :
    (∀ m, msg = some m → m ≠ "" → alertAfterSubmit (.failure msg) = m) ∧
    (msg = none ∨ msg = some "" →
      alertAfterSubmit (.failure msg) = "Something went wrong.") := by
  constructor
  · rintro m rfl hm
    simp [alertAfterSubmit, hm]
  · rintro (rfl | rfl) <;> rfl

/-- Witness for C5: a non-empty server message is shown verbatim. -/
theorem alertAfterSubmit_spec_witness :
    alertAfterSubmit (SubmitOutcome.failure (some "user exists")) = "user exists" :=
  (alertAfterSubmit_spec (some "user exists")).1 "user exists" rfl (by decide)

/-- Claim C1: when the list splits as `pre ++ c :: post` with `c` the
only record carrying the target id, the confirmed delete yields
`pre ++ post`: it removes exactly that record and keeps every other
record, in order. -/
theorem handleDelete_removes_target (pre post : List Customer) (c : Customer)
    (targetId : Nat) (hc : c.id = targetId)
    (hpre : ∀ d ∈ pre, d.id ≠ targetId)
    (hpost : ∀ d ∈ post, d.id ≠ targetId) :
    handleDelete true targetId (pre ++ c :: post) = pre ++ post := by
  have h1 : pre.filter (fun customer => customer.id != targetId) = pre :=
    List.filter_eq_self.mpr (by intro d hd; simpa using hpre d hd)
  have h2 : post.filter (fun customer => customer.id != targetId) = post :=
    List.filter_eq_self.mpr (by intro d hd; simpa using hpost d hd)
  have h3 : (c.id != targetId) = false := by simp [hc]
  simp [handleDelete, List.filter_append, List.filter_cons, h1, h2, h3]

/-- Witness for C1: the spec's example, deleting id 1 from the initial
two-record list, leaves exactly Jane Smith's record. -/
theorem handleDelete_removes_target_witness :
    handleDelete true 1 ([] ++ johnDoe :: [janeSmith]) = [] ++ [janeSmith] :=
  handleDelete_removes_target [] [janeSmith] johnDoe 1 rfl
    (by intro d hd; cases hd) (by decide)

/-- Claim C2: editing with a non-empty name rewrites, position by
position, exactly the name field of the records whose id matches the
target and leaves every other record untouched; an empty or cancelled
prompt leaves the list identical. -/
theorem handleEdit_frame (customers : List Customer) (targetId : Nat)
    (n : String) (hn : n ≠ "") :
    (∀ i : Nat, (handleEdit (some n) targetId customers)[i]? =
      (customers[i]?).map
        (fun c => if c.id = targetId then { c with name := n } else c)) ∧
    handleEdit (some "") targetId customers = customers ∧
    handleEdit none targetId customers = customers := by
  refine ⟨?_, by simp [handleEdit], rfl⟩
  intro i
  have hb : (n != "") = true := by simpa using hn
  have hfg : (fun c : Customer =>
        if c.id == targetId then { c with name := n } else c) =
      (fun c : Customer => if c.id = targetId then { c with name := n } else c) := by
    funext c
    by_cases h : c.id = targetId <;> simp [h]
  simp only [handleEdit, hb, if_true, hfg]
  exact List.getElem?_map _ customers i

/-- Witness for C2: the spec's example, editing id 2's name to "X" in
the initial list, yields Jane Smith's record with name "X" at index 1. -/
theorem handleEdit_frame_witness :
    (handleEdit (some "X") 2 initialCustomers)[1]? =
      (initialCustomers[1]?).map
        (fun c => if c.id = 2 then { c with name := "X" } else c) :=
  (handleEdit_frame initialCustomers 2 "X" (by decide)).1 1

/-- Ids are untouched by the edit handler: it maps a name-only update
over the list, so the list of ids is unchanged. -/
theorem handleEdit_map_id (newName : Option String) (targetId : Nat)
    (customers : List Customer) :
    (handleEdit newName targetId customers).map Customer.id =
      customers.map Customer.id := by
  cases newName with
  | none => rfl
  | some n =>
    by_cases hn : (n != "") = true
    · simp only [handleEdit, hn, if_true, List.map_map]
      apply List.map_congr_left
      intro c _
      by_cases h : c.id = targetId <;> simp [h]
    · simp [handleEdit, hn]

/-- Claim C9: on a list with pairwise-distinct ids, both the delete and
the edit handler return a list with pairwise-distinct ids; delete
returns a sublist of the original records and edit never changes any
id. -/
theorem crud_preserves_distinct_ids (customers : List Customer) (targetId : Nat)
    (confirmed : Bool) (newName : Option String)
    (h : (customers.map Customer.id).Pairwise (· ≠ ·)) :
    ((handleDelete confirmed targetId customers).map Customer.id).Pairwise (· ≠ ·) ∧
    ((handleEdit newName targetId customers).map Customer.id).Pairwise (· ≠ ·) ∧
    (handleDelete confirmed targetId customers).Sublist customers ∧
    (handleEdit newName targetId customers).map Customer.id =
      customers.map Customer.id := by
  have hsub : (handleDelete confirmed targetId customers).Sublist customers := by
    cases confirmed
    · exact List.Sublist.refl _
    · simp only [handleDelete, if_true]
      exact List.filter_sublist _
  have hedit := handleEdit_map_id newName targetId customers
  refine ⟨?_, ?_, hsub, hedit⟩
  · exact List.Pairwise.sublist (hsub.map Customer.id) h
  · rw [hedit]; exact h

/-- Witness for C9 on the initial list with delete target 1 and edit
name "X". -/
theorem crud_preserves_distinct_ids_witness :
    ((handleDelete true 1 initialCustomers).map Customer.id).Pairwise (· ≠ ·) ∧
    ((handleEdit (some "X") 1 initialCustomers).map Customer.id).Pairwise (· ≠ ·) ∧
    (handleDelete true 1 initialCustomers).Sublist initialCustomers ∧
    (handleEdit (some "X") 1 initialCustomers).map Customer.id =
      initialCustomers.map Customer.id :=
  crud_preserves_distinct_ids initialCustomers 1 true (some "X") (by decide)

/-- Counterexample to C7 as stated: the submit handler has no pending
guard, so two submit events in a row from the initial state leave two
requests pending and two requests issued — the pending count is not
bounded by one over reachable states. -/
theorem two_pending_requests_reachable :
    ¬ ((runForm [FormEvent.submit, FormEvent.submit]).pending ≤ 1) ∧
    (runForm [FormEvent.submit, FormEvent.submit]).sent.length = 2 := by
  exact ⟨by decide, rfl⟩

/-- Claim C7 amended: nothing gates submission on pending requests —
every submit event, also while a request is pending, increments the
pending count and issues exactly one additional request built from the
current form values. -/
theorem submit_always_issues_request (s : FormUIState) :
    (stepForm s FormEvent.submit).pending = s.pending + 1 ∧
    (stepForm s FormEvent.submit).sent = s.sent ++ submitRequests s.form :=
  ⟨rfl, rfl⟩

end Restaurant
